import Mathlib

/-!
Verification of the checkmk-sdp reconciliation engine.

Shallow embedding of the notification-ingestion pipeline
(`src/app/notification.py`), the persistent link store
(`src/app/database/client.py`), the acknowledgement
and polling logic (`src/app/checkmk/client.py`), and the reconciliation
coordinator (`src/app/coordinator/client.py`).

Modelling conventions:
- SQLite tables become lists of row structures; row ids are allocated from
  a counter, as SQLite rowids are (starting at 1 in every well-formed
  state).  The audit columns `created_at`/`updated_at` are timestamps
  outside the modelled record state.
- Python `Optional` values become `Option`; Python truthiness of strings,
  integers and optionals is made explicit (`truthyStr`, `truthyInt`).
- External nondeterminism (driver errors, remote API outcomes) is passed
  in as explicit environment values, mirroring exactly the branches the
  Python code has for them.
- A raised `HTTPException` is an `Except.error` carrying the status code.
-/

namespace CheckmkSdp

/-! ### Python truthiness and attribute helpers -/

/-- Python truthiness of an optional string: `None` and `""` are falsy. -/
def truthyStr : Option String → Bool
  | none => false
  | some s => !s.isEmpty

/-- Python truthiness of an optional integer: `None` and `0` are falsy. -/
def truthyInt : Option Int → Bool
  | none => false
  | some n => n != 0

/-- Python `a or b` on optional strings: yields `a` when truthy, else `b`. -/
def pyOr (a b : Option String) : Option String :=
  if truthyStr a then a else b

/-- Python `str()` of an optional integer (`str(None) = "None"`). -/
def pyStrOfOptInt : Option Int → String
  | none => "None"
  | some n => toString n

/-- Python `str.lower()` restricted to the ASCII range the compared
status labels use, character by character. -/
def pyLower (s : String) : String :=
  ⟨s.data.map Char.toLower⟩

/-- Lower-cased optional string, for `status_name.lower()`. -/
def lowerOpt (s : Option String) : Option String :=
  s.map pyLower

/-! ### Notifications (`src/app/checkmk/models.py`)

Only the fields that the modelled operations read are included; the
remaining notification fields are opaque to the reconciliation engine. -/

structure ServiceNotification where
  host_name : Option String
  service_check_command : Option String
  service_desc : Option String
  service_problem_id : Option String
  service_state : Option String
deriving Repr, DecidableEq

structure HostNotification where
  host_name : Option String
  host_problem_id : Option String
  host_state : Option String
deriving Repr, DecidableEq

inductive Notification where
  | service (s : ServiceNotification)
  | host (h : HostNotification)
deriving Repr, DecidableEq

/-- Serialisation of an optional string field inside `model_dump_json`. -/
def dumpOpt : Option String → String
  | none => "null"
  | some s => "\"" ++ s ++ "\""

/-- Model of the pydantic `model_dump_json` on a service notification, abstracted to
the tuple of modelled fields (distinct field values give distinct output). -/
def ServiceNotification.model_dump_json (s : ServiceNotification) : String :=
  String.intercalate "," [dumpOpt s.host_name, dumpOpt s.service_check_command,
    dumpOpt s.service_desc, dumpOpt s.service_problem_id, dumpOpt s.service_state]

/-- Model of `model_dump_json` on a host notification. -/
def HostNotification.model_dump_json (h : HostNotification) : String :=
  String.intercalate "," [dumpOpt h.host_name, dumpOpt h.host_problem_id,
    dumpOpt h.host_state]

/-- Attribute lookup `getattr(payload, "service_problem_id", None)`: a `HostNotification`
has no such attribute, so the default `None` is returned for it. -/
def Notification.service_problem_id_attr : Notification → Option String
  | .service sn => sn.service_problem_id
  | .host _ => none

/-- Attribute lookup `getattr(payload, "host_problem_id", None)`: a `ServiceNotification`
has no such attribute, so the default `None` is returned for it. -/
def Notification.host_problem_id_attr : Notification → Option String
  | .service _ => none
  | .host hn => hn.host_problem_id

/-- Predicate `is_recovery_notification` (`src/app/notification.py:99`): the
`or`-chained problem identifier equals the sentinel string `"0"`. -/
def is_recovery_notification (n : Notification) : Bool :=
  pyOr n.service_problem_id_attr n.host_problem_id_attr == some "0"

/-- The value bound to the `problem_id` column by `insert_checkmk_problem`
(the field matching the kind of the notification, without the `or` fallback). -/
def Notification.problem_id_column : Notification → Option String
  | .service sn => sn.service_problem_id
  | .host hn => hn.host_problem_id

/-- The value assigned to `state` by the upsert (`excluded.state`). -/
def Notification.state_column : Notification → Option String
  | .service sn => sn.service_state
  | .host hn => hn.host_state

/-! ### The persistent link store (`src/app/database/client.py`) -/

/-- A row of `t_checkmk_problems`. -/
structure AlertRow where
  id : Nat
  host_name : Option String
  service_check_command : Option String
  service_description : Option String
  problem_id : Option String
  kind : String
  state : Option String
  raw_payload : String
  acknowledged : Nat
deriving Repr, DecidableEq

/-- A row of `t_servicedesk_requests` (`request_id` is the remote ticket
identifier, `id` the internal key of the store). -/
structure RequestRow where
  id : Nat
  request_id : Int
  status : String
deriving Repr, DecidableEq

/-- A row of `t_problem_request_links` (`request_id` is the internal key of
a `RequestRow`, `alert_id` the internal key of an `AlertRow`). -/
structure LinkRow where
  alert_id : Nat
  request_id : Nat
deriving Repr, DecidableEq

/-- The durable state owned by the `DB` class: the three tables plus the
rowid counters. -/
structure DBState where
  problems : List AlertRow
  requests : List RequestRow
  links : List LinkRow
  nextAlertId : Nat
  nextRequestRowId : Nat
deriving Repr, DecidableEq

/-- The row a new insert with the given `problem_id` conflicts with: the
unique-indexed row holding the same non-NULL `problem_id` (SQL `NULL`
never conflicts in a unique index, so a NULL identifier always inserts). -/
def DBState.findProblemRow (s : DBState) (pid : Option String) : Option AlertRow :=
  match pid with
  | none => none
  | some p => s.problems.find? (fun r => r.problem_id == some p)

/-- Core of `DB.insert_checkmk_problem` (`client.py:155`): the SQL
`INSERT ... ON CONFLICT(problem_id) DO UPDATE SET state = excluded.state,
updated_at = now RETURNING id`.  On conflict only `state` (and
the unmodelled audit timestamp) is updated; the existing rowid is
returned.  Otherwise a fresh row is appended and its new rowid returned. -/
def upsertProblem (s : DBState) (hname scc sdesc pid : Option String)
    (kind : String) (state : Option String) (raw : String) : DBState × Nat :=
  match s.findProblemRow pid with
  | some row =>
      ({ s with problems := s.problems.map (fun r =>
          if r.problem_id == pid then { r with state := state } else r) },
       row.id)
  | none =>
      ({ s with
          problems := s.problems ++
            [⟨s.nextAlertId, hname, scc, sdesc, pid, kind, state, raw, 0⟩],
          nextAlertId := s.nextAlertId + 1 },
       s.nextAlertId)

/-- Method `DB.insert_checkmk_problem`: dispatches on the runtime type of the
payload; a host insert leaves the service columns NULL. -/
def DB.insert_checkmk_problem (s : DBState) (n : Notification) : DBState × Nat :=
  match n with
  | .service sn =>
      upsertProblem s sn.host_name sn.service_check_command sn.service_desc
        sn.service_problem_id "service" sn.service_state sn.model_dump_json
  | .host hn =>
      upsertProblem s hn.host_name none none hn.host_problem_id "host"
        hn.host_state hn.model_dump_json

/-- Method `DB.insert_request` (`client.py:212`): upsert keyed on the remote
`request_id`, returning the internal key; a driver error (`fault`) is
caught, logged and surfaced as `None`. -/
def DB.insert_request (fault : Bool) (s : DBState) (rid : Int)
    (status : String) : DBState × Option Nat :=
  if fault then (s, none)
  else
    match s.requests.find? (fun r => r.request_id == rid) with
    | some row =>
        ({ s with requests := s.requests.map (fun r =>
            if r.request_id == rid then { r with status := status } else r) },
         some row.id)
    | none =>
        ({ s with
            requests := s.requests ++ [⟨s.nextRequestRowId, rid, status⟩],
            nextRequestRowId := s.nextRequestRowId + 1 },
         some s.nextRequestRowId)

/-- Method `DB.link_problem_and_request` (`client.py:233`): a plain
`INSERT INTO t_problem_request_links`; any driver error (`fault`) is
caught and logged, never raised to the caller.
Modelled from the spec: the link-table DDL (schema `.sql` files) is not
among the repository sources; spec §6 specifies the link table with
foreign keys and *no* uniqueness constraint, so a repeated insert for the
same alert succeeds and appends a second row. -/
def DB.link_problem_and_request (fault : Bool) (s : DBState)
    (alert_id request_id : Nat) : DBState :=
  if fault then s
  else { s with links := s.links ++ [⟨alert_id, request_id⟩] }

/-- Method `DB.check_if_request_exists` (`client.py:249`): first link row for the
alert, if any, yielding its `request_id`. -/
def DB.check_if_request_exists (s : DBState) (alert_id : Nat) : Option Nat :=
  (s.links.find? (fun l => l.alert_id == alert_id)).map (fun l => l.request_id)

/-- Method `DB.update_checkmk_acknowledged` (`client.py:297`):
`UPDATE t_checkmk_problems SET acknowledged = 1 WHERE id = ?` (plus the
unmodelled audit timestamp); returns `True`. -/
def DB.update_checkmk_acknowledged (s : DBState) (id : Nat) : DBState × Bool :=
  ({ s with problems := s.problems.map (fun r =>
      if r.id == id then { r with acknowledged := 1 } else r) },
   true)

/-- The joined row returned by `DB.get_checkmk_info`. -/
structure CheckmkInfo where
  id : Nat
  host_name : Option String
  service_check_command : Option String
  service_description : Option String
  acknowledged : Nat
  state : Option String
  kind : String
deriving Repr, DecidableEq

/-- Method `DB.get_checkmk_info` (`client.py:270`): the three-way join
`requests ⋈ links ⋈ problems` filtered on the remote `request_id`,
`fetchone` taking the first matching combination. -/
def DB.get_checkmk_info (s : DBState) (request_id : Int) : Option CheckmkInfo :=
  match s.requests.find? (fun r => r.request_id == request_id) with
  | none => none
  | some r =>
    match s.links.find? (fun l => l.request_id == r.id) with
    | none => none
    | some l =>
      match s.problems.find? (fun p => p.id == l.alert_id) with
      | none => none
      | some p =>
          some ⟨p.id, p.host_name, p.service_check_command,
                p.service_description, p.acknowledged, p.state, p.kind⟩

/-! ### The ingestion pipeline (`src/app/notification.py`) -/

/-- Environment outcome of the `t_checkmk_problems` upsert as seen by the
pipeline: normal completion, a driver error (raised as
`CheckmkDBInsertionError`), or a completed statement yielding no row. -/
inductive UpsertOutcome where
  | ok
  | raises
  | emptyRow
deriving Repr, DecidableEq

/-- Environment outcome of `sdp.create_request`, one constructor per
`except` branch of `create_sdp_request` plus the success case. -/
inductive SDPResult where
  | ok (rid : Int) (statusName : String)
  | invalidData
  | badResponse (code : Option Nat)
  | unreachable
  | creationError
  | unexpected
deriving Repr, DecidableEq

/-- External nondeterminism of one ingestion. -/
structure Env where
  upsertOutcome : UpsertOutcome
  sdpResult : SDPResult
  insertRequestFault : Bool
  linkFault : Bool
deriving Repr, DecidableEq

/-- The `NotificationResponse` model (`request` abstracted to the remote
id of the created ticket, when one is attached). -/
structure NotificationResponse where
  success : Bool
  message : String
  request : Option Int
deriving Repr, DecidableEq

/-- Observable outcome of one call to `handle_notification_request`: the
returned response or raised HTTP status, the final store state, and the
number of ticket-creation calls made to the SDP collaborator. -/
structure HandleOutcome where
  result : Except Nat NotificationResponse
  db : DBState
  sdpCreateCalls : Nat
deriving Repr

/-- `True` when the ingestion aborted as a failure (an exception was
raised or a `success=False` response returned). -/
def HandleOutcome.isFailure (o : HandleOutcome) : Bool :=
  match o.result with
  | .error _ => true
  | .ok resp => !resp.success

/-- Function `handle_notification_request` (`src/app/notification.py:26`), line by
line.  The `emptyRow` branch models `fetchone` yielding no row (the
`if not cmk_db_id` guard) with no observed durable write; `cmk_db_id == 0`
covers the same Python-falsiness guard on a zero rowid.  The `try` around
`link_problem_and_request` cannot fire in the source because that method
swallows its own errors, so the pipeline always proceeds to the success
response after it. -/
def handle_notification_request (env : Env) (db : DBState) (n : Notification) :
    HandleOutcome :=
  if is_recovery_notification n then
    ⟨.ok ⟨true, "Recovery notification ignored.", none⟩, db, 0⟩
  else
    match env.upsertOutcome with
    | .raises => ⟨.error 400, db, 0⟩
    | .emptyRow => ⟨.ok ⟨false, "No cmk_db_id. Insertion likely failed", none⟩, db, 0⟩
    | .ok =>
      match DB.insert_checkmk_problem db n with
      | (db1, cmk_db_id) =>
        if cmk_db_id == 0 then
          ⟨.ok ⟨false, "No cmk_db_id. Insertion likely failed", none⟩, db1, 0⟩
        else
          match DB.check_if_request_exists db1 cmk_db_id with
          | some _ => ⟨.ok ⟨true, "Request already exists.", none⟩, db1, 0⟩
          | none =>
            match env.sdpResult with
            | .invalidData => ⟨.error 422, db1, 1⟩
            | .badResponse code => ⟨.error (code.getD 502), db1, 1⟩
            | .unreachable => ⟨.error 503, db1, 1⟩
            | .creationError => ⟨.error 500, db1, 1⟩
            | .unexpected => ⟨.error 500, db1, 1⟩
            | .ok rid statusName =>
              match DB.insert_request env.insertRequestFault db1 rid statusName with
              | (db2, none) =>
                  ⟨.ok ⟨false, "No sdp_db_id. Insertion likely failed", none⟩, db2, 1⟩
              | (db2, some sdp_db_id) =>
                if sdp_db_id == 0 then
                  ⟨.ok ⟨false, "No sdp_db_id. Insertion likely failed", none⟩, db2, 1⟩
                else
                  ⟨.ok ⟨true, "Request successfully created.", some rid⟩,
                   DB.link_problem_and_request env.linkFault db2 cmk_db_id sdp_db_id,
                   1⟩

/-! ### The monitoring client (`src/app/checkmk/client.py`) -/

/-- The fields of a cached `ServiceModel.extensions` read by the
acknowledgement path. -/
structure ServiceEntry where
  check_command : Option String
  state : Option Int
deriving Repr, DecidableEq

/-- The fields of a cached `HostModel.extensions` read by the
acknowledgement path. -/
structure HostEntry where
  name : Option String
  state : Option Int
deriving Repr, DecidableEq

/-- Live monitoring snapshot of the client (`self.services`, `self.hosts`),
refreshed by the polling loops. -/
structure CheckmkState where
  services : List ServiceEntry
  hosts : List HostEntry
deriving Repr, DecidableEq

/-- Model of `ResponseDetails` (`src/app/utils/models.py`), restricted to the
fields the modelled paths read. -/
structure ResponseDetails where
  status_code : Option Nat
  success : Option Bool
deriving Repr, DecidableEq

/-- A `ServiceAcknowledgement` or `HostAcknowledgement` payload, carrying
the fields the client reads from it. -/
inductive AckPayload where
  | service (service_description : Option String) (host_name : Option String)
      (comment : String)
  | host (host_name : Option String) (comment : String)
deriving Repr, DecidableEq

/-- Method `Checkmk._check_if_problem_state` (`client.py:308`): scan the live
snapshot for the first service whose `check_command` equals the
`service_description` of the payload (resp. the first host carrying the
name of the payload) and
report whether its state is `0`; with no match the Python function falls
off the loop and implicitly returns `None`. -/
def Checkmk.check_if_problem_state (cmk : CheckmkState) (p : AckPayload) :
    Option Bool :=
  match p with
  | .service sdesc _ _ =>
      (cmk.services.find? (fun svc => svc.check_command == sdesc)).map
        (fun svc => svc.state == some 0)
  | .host hname _ =>
      (cmk.hosts.find? (fun h => h.name == hname)).map
        (fun h => h.state == some 0)

/-- Method `Checkmk._add_acknowledgement` (`client.py:278`): when the truthiness
check on `_check_if_problem_state` fires (i.e. it returned `True`), a
synthetic `ResponseDetails(success=True)` is returned with **no** API
call; otherwise the acknowledgement API call is made and its result
(`apiResult`, an environment value) returned.  The second component
counts outbound API calls. -/
def Checkmk.add_acknowledgement (cmk : CheckmkState) (apiResult : ResponseDetails)
    (p : AckPayload) : ResponseDetails × Nat :=
  if Checkmk.check_if_problem_state cmk p == some true then
    (⟨none, some true⟩, 0)
  else
    (apiResult, 1)

/-- Method `Checkmk.add_service_acknowledgement` (`client.py:332`): builds a
`ServiceAcknowledgement` whose `service_description` field receives the
`service_check_command` argument, then delegates. -/
def Checkmk.add_service_acknowledgement (cmk : CheckmkState)
    (apiResult : ResponseDetails) (service_check_command hostname : Option String)
    (comment : String) : ResponseDetails × Nat :=
  Checkmk.add_acknowledgement cmk apiResult
    (.service service_check_command hostname comment)

/-- Method `Checkmk.add_host_acknowledgement` (`client.py:367`). -/
def Checkmk.add_host_acknowledgement (cmk : CheckmkState)
    (apiResult : ResponseDetails) (hostname : Option String)
    (comment : String) : ResponseDetails × Nat :=
  Checkmk.add_acknowledgement cmk apiResult (.host hostname comment)

/-! ### The polling loops (`client.py:459` and `client.py:492`)

`poll_hosts_periodically` and `poll_services_periodically` share one
retry/backoff structure; `poll_step` is the body of that `while True`
loop as a transition on its mutable locals, with the poll outcome of the
iteration passed in.  Every iteration ends in `asyncio.sleep(self.timeout)`
regardless of state (`poll_sleep`). -/

/-- The loop locals `retry_count` and `retry_interval_seconds`. -/
structure PollState where
  retry_count : Nat
  retry_interval_seconds : Nat
deriving Repr, DecidableEq

/-- One iteration of the polling loop: on success the interval is reset
to the base `timeout` and the counter cleared; on failure the counter is
incremented, the interval doubled, and the counter reset to zero once it
reaches the `retries` ceiling (the loop keeps running either way). -/
def Checkmk.poll_step (timeout retries : Nat) (s : PollState)
    (pollSucceeds : Bool) : PollState :=
  if pollSucceeds then
    ⟨0, timeout⟩
  else
    let rc := s.retry_count + 1
    ⟨if rc ≥ retries then 0 else rc, s.retry_interval_seconds * 2⟩

/-- The wait performed at the end of every loop iteration:
`await asyncio.sleep(self.timeout)`, independent of the retry state. -/
def Checkmk.poll_sleep (timeout : Nat) (_s : PollState) : Nat := timeout

/-- The loop state after `n` consecutive failed iterations starting from
the initial state `⟨0, timeout⟩`. -/
def Checkmk.poll_after_failures (timeout retries : Nat) : Nat → PollState
  | 0 => ⟨0, timeout⟩
  | n + 1 =>
      Checkmk.poll_step timeout retries
        (Checkmk.poll_after_failures timeout retries n) false

/-! ### The reconciliation coordinator (`src/app/coordinator/client.py`) -/

/-- The fields of a polled SDP `Request` read by the coordinator:
`request.id` and `getattr(request.status, "name", None)`. -/
structure SDPReq where
  id : Option Int
  status_name : Option String
deriving Repr, DecidableEq

/-- External nondeterminism of one acknowledgement attempt: whether the
collaborator call raises, and the `ResponseDetails` of the outbound API
call when one is actually sent. -/
structure CoordEnv where
  ackRaises : Bool
  apiResult : ResponseDetails
deriving Repr, DecidableEq

/-- Observable outcome of processing one polled ticket: the store state
afterwards and the acknowledgement-collaborator invocations issued. -/
structure CoordOutcome where
  db : DBState
  ackCalls : List AckPayload
deriving Repr, DecidableEq

/-- The loop body of `LogicCoordinator._process_request_states`
(`client.py:48`-`client.py:108`) for one polled request: skip on absent or
"open" status, falsy id, unresolvable link info, or an already
acknowledged alert; otherwise invoke the service- or host-scoped
acknowledgement (dispatching on the presence of `host_name` and
`service_check_command`, the service payload carrying
`service_description`), and on a successful response persist
`acknowledged` and the ticket status.  A raised collaborator call is
logged and skipped; with `host_name` falsy no call is made and the `None`
response is logged as a failure. -/
def LogicCoordinator.process_request (env : CoordEnv) (cmk : CheckmkState)
    (ticket_url : String) (db : DBState) (req : SDPReq) : CoordOutcome :=
  if !truthyStr req.status_name || (lowerOpt req.status_name == some "open") then
    ⟨db, []⟩
  else if !truthyInt req.id then
    ⟨db, []⟩
  else
    match req.id with
    | none => ⟨db, []⟩
    | some rid =>
      match DB.get_checkmk_info db rid with
      | none => ⟨db, []⟩
      | some info =>
        if info.acknowledged == 1 then
          ⟨db, []⟩
        else
          let ack_comment := ticket_url ++ toString rid
          if truthyStr info.host_name then
            let payload : AckPayload :=
              if truthyStr info.service_check_command then
                .service info.service_description info.host_name ack_comment
              else
                .host info.host_name ack_comment
            if env.ackRaises then
              ⟨db, [payload]⟩
            else
              let response := (Checkmk.add_acknowledgement cmk env.apiResult payload).1
              if response.success == some true then
                let db1 := (DB.update_checkmk_acknowledged db info.id).1
                let db2 :=
                  (DB.insert_request false db1 rid (req.status_name.getD "")).1
                ⟨db2, [payload]⟩
              else
                ⟨db, [payload]⟩
          else
            ⟨db, []⟩

/-- Method `_process_request_states`: the loop over all polled requests,
accumulating the issued acknowledgement calls. -/
def LogicCoordinator.process_request_states (env : CoordEnv) (cmk : CheckmkState)
    (ticket_url : String) (db : DBState) (reqs : List SDPReq) : CoordOutcome :=
  reqs.foldl
    (fun acc req =>
      let o := LogicCoordinator.process_request env cmk ticket_url acc.db req
      ⟨o.db, acc.ackCalls ++ o.ackCalls⟩)
    ⟨db, []⟩

/-! ### The problem cache (`src/app/database/client.py:315`) -/

/-- Cache entry `CombinedRequest` (`src/app/database/models.py`). -/
structure CombinedRequest where
  servicedesk_request_id : Option Int
  servicedesk_request_state : Option String
  checkmk_problem_id : Option Int
  checkmk_state : Option String
  checkmk_type : Option String
deriving Repr, DecidableEq

/-- A Python value passed as the `key` argument of `ProblemCache.exists`:
the call sites pass strings, but any value is accepted. -/
inductive PyKey where
  | str (s : String)
  | int (n : Int)
deriving Repr, DecidableEq

/-- Python `==` between the key and one element of the list of
stringified ids: comparing an `int` to a `str` is always `False`. -/
def pyKeyEqStr : PyKey → String → Bool
  | .str s, t => s == t
  | .int _, _ => false

/-- Method `ProblemCache.exists` (`client.py:358`): stringify the
`checkmk_problem_id` of every cached entry and test `key in ids` by
Python equality. -/
def ProblemCache.pc_exists (cache : List CombinedRequest) (key : PyKey) : Bool :=
  let ids := cache.map (fun r => pyStrOfOptInt r.checkmk_problem_id)
  ids.any (fun s => pyKeyEqStr key s)

/-- Method `DB.check_if_problem_exists` (`client.py:143`): delegates to
the membership test of the cache. -/
def DB.check_if_problem_exists (cache : List CombinedRequest) (key : PyKey) :
    Bool :=
  ProblemCache.pc_exists cache key

/-- The acknowledgement payload the coordinator builds for a resolvable
alert: service-scoped when `service_check_command` is truthy (the service
payload carrying the stored `service_description`), host-scoped otherwise. -/
def coordPayload (info : CheckmkInfo) (comment : String) : AckPayload :=
  if truthyStr info.service_check_command then
    .service info.service_description info.host_name comment
  else
    .host info.host_name comment

/-! ### Concrete states used as witnesses and counterexample inputs -/

/-- An ingested service alert with problem id `"1234"`, as in the
scenario of the spec. -/
def exRow : AlertRow :=
  ⟨1, some "web01", some "check_cpu", some "CPU load", some "1234",
   "service", some "CRITICAL", "RAW0", 0⟩

/-- A store holding `exRow`, a ticket (remote id 100) and the link
between them. -/
def exDb : DBState := ⟨[exRow], [⟨1, 100, "Open"⟩], [⟨1, 1⟩], 2, 2⟩

/-- A redelivered notification for problem `"1234"` with an updated state
and hence an updated raw payload. -/
def exServiceUpdate : ServiceNotification :=
  ⟨some "web01", some "check_cpu", some "CPU load", some "1234", some "OK"⟩

/-- Environment in which every external collaborator behaves normally. -/
def envOk : Env := ⟨.ok, .ok 101 "Open", false, false⟩

/-- Environment in which the alert upsert raises a driver error. -/
def envRaise : Env := ⟨.raises, .ok 101 "Open", false, false⟩

/-- A host recovery notification (`host_problem_id = "0"`). -/
def recHost : HostNotification := ⟨some "web01", some "0", some "UP"⟩

/-- A store whose single alert is already acknowledged. -/
def ackDb : DBState :=
  ⟨[⟨1, some "web01", none, none, some "9", "host", some "DOWN", "R", 1⟩],
   [], [], 2, 1⟩

/-- A polled ticket with a non-open status, linked (in `exDb`) to the
unacknowledged alert `exRow`. -/
def reqClosed : SDPReq := ⟨some 100, some "Closed"⟩

/-- A live snapshot in which no entry matches the description stored in
`exRow`, so a
real acknowledgement API call is required. -/
def cmkBusy : CheckmkState := ⟨[⟨some "check_mk-cpu", some 2⟩], []⟩

/-- A live snapshot in which the targets of the example payloads are in
the healthy state `0`. -/
def cmkHealthy : CheckmkState :=
  ⟨[⟨some "CPU load", some 0⟩], [⟨some "web01", some 0⟩]⟩

/-- A successful acknowledgement API outcome. -/
def coordEnvOk : CoordEnv := ⟨false, ⟨some 204, some true⟩⟩

/-- A one-entry problem cache whose cached problem id is the integer
`1234`. -/
def cacheEx : List CombinedRequest :=
  [⟨some 1, some "Open", some 1234, some "CRITICAL", some "service"⟩]

/-! ## Theorems -/

/-- Claim C4: a notification whose (`or`-chained) problem identifier is
the resolution sentinel `"0"` makes ingestion return the
recovery-ignored response with the store untouched and no
ticket-creation call, for every environment. -/
theorem recovery_notification_noop (env : Env) (db : DBState) (n : Notification)
    (h : pyOr n.service_problem_id_attr n.host_problem_id_attr = some "0") :
    handle_notification_request env db n =
      ⟨.ok ⟨true, "Recovery notification ignored.", none⟩, db, 0⟩ := by
  have hrec : is_recovery_notification n = true := by
    simp [is_recovery_notification, h]
  simp [handle_notification_request, hrec]

/-- Claim C4 witness: a host notification with `host_problem_id = "0"`
is ignored even when the upsert would raise. -/
theorem recovery_notification_noop_witness :
    handle_notification_request envRaise exDb (.host recHost) =
      ⟨.ok ⟨true, "Recovery notification ignored.", none⟩, exDb, 0⟩ :=
  recovery_notification_noop envRaise exDb (.host recHost) rfl

/-- Claim C5: when the alert upsert raises or yields no internal key, the
ingestion of a non-recovery notification aborts as a failure, performs no
ticket-creation call, and leaves the store untouched (in particular no
link is created). -/
theorem failed_upsert_aborts_before_ticket (env : Env) (db : DBState)
    (n : Notification)
    (h1 : is_recovery_notification n = false)
    (h2 : env.upsertOutcome = .raises ∨ env.upsertOutcome = .emptyRow) :
    (handle_notification_request env db n).isFailure = true
    ∧ (handle_notification_request env db n).sdpCreateCalls = 0
    ∧ (handle_notification_request env db n).db = db := by
  rcases h2 with h2 | h2 <;>
    simp [handle_notification_request, h1, h2, HandleOutcome.isFailure]

/-- Claim C5 witness: a concrete failing ingestion of a non-recovery
service notification. -/
theorem failed_upsert_aborts_before_ticket_witness :
    (handle_notification_request envRaise exDb (.service exServiceUpdate)).isFailure
        = true
    ∧ (handle_notification_request envRaise exDb
        (.service exServiceUpdate)).sdpCreateCalls = 0
    ∧ (handle_notification_request envRaise exDb
        (.service exServiceUpdate)).db = exDb :=
  failed_upsert_aborts_before_ticket envRaise exDb (.service exServiceUpdate)
    (by decide) (Or.inl rfl)

/-- Claim C6: `update_checkmk_acknowledged` is idempotent (a second call
with the same key leaves the store exactly as after the first), always
reports success rather than an error, and on a store whose rows for the
key are already acknowledged it is a no-op. -/
theorem markAcknowledged_idempotent (s : DBState) (id : Nat) :
    DB.update_checkmk_acknowledged (DB.update_checkmk_acknowledged s id).1 id
        = DB.update_checkmk_acknowledged s id
    ∧ (DB.update_checkmk_acknowledged s id).2 = true
    ∧ ((∀ r ∈ s.problems, r.id = id → r.acknowledged = 1) →
        (DB.update_checkmk_acknowledged s id).1 = s) := by
  refine ⟨?_, rfl, ?_⟩
  · have hmap :
        ((s.problems.map (fun r =>
            if r.id == id then { r with acknowledged := 1 } else r)).map (fun r =>
            if r.id == id then { r with acknowledged := 1 } else r))
          = s.problems.map (fun r =>
            if r.id == id then { r with acknowledged := 1 } else r) := by
      rw [List.map_map]
      apply List.map_congr_left
      intro r _
      by_cases h : (r.id == id) = true
      · simp [Function.comp, h]
      · simp [Function.comp, h]
    simp only [DB.update_checkmk_acknowledged]
    rw [hmap]
  · intro hall
    have hmap : s.problems.map (fun r =>
        if r.id == id then { r with acknowledged := 1 } else r) = s.problems := by
      conv_rhs => rw [← List.map_id s.problems]
      apply List.map_congr_left
      intro r hr
      by_cases h : (r.id == id) = true
      · have hid : r.id = id := by simpa using h
        have hack : r.acknowledged = 1 := hall r hr hid
        obtain ⟨ri, rh, rs, rd, rp, rk, rst, rraw, rack⟩ := r
        simp_all
      · simp [h]
    simp only [DB.update_checkmk_acknowledged]
    rw [hmap]

/-- Claim C6 witness: acknowledging the already-acknowledged alert of
`ackDb` a second time is a no-op and reports success. -/
theorem markAcknowledged_idempotent_witness :
    (DB.update_checkmk_acknowledged ackDb 1).1 = ackDb
    ∧ (DB.update_checkmk_acknowledged ackDb 1).2 = true :=
  ⟨(markAcknowledged_idempotent ackDb 1).2.2 (by decide),
   (markAcknowledged_idempotent ackDb 1).2.1⟩

/-- Claim C7: the retry interval of the polling loop doubles on each
consecutive failure (hence never decreases across failures: after `n`
consecutive failures from the initial state it is `timeout * 2 ^ n`,
monotone in `n`); when the failure counter reaches the `retries` ceiling
it is reset to zero (the loop keeps stepping rather than stopping); a
successful poll resets the state to counter zero and the base interval;
and the end-of-iteration sleep is always the base `timeout`. -/
theorem poll_backoff_monotone_reset (timeout retries n : Nat) (s : PollState) :
    (Checkmk.poll_step timeout retries s false).retry_interval_seconds
        = 2 * s.retry_interval_seconds
    ∧ s.retry_interval_seconds
        ≤ (Checkmk.poll_step timeout retries s false).retry_interval_seconds
    ∧ (retries ≤ s.retry_count + 1 →
        (Checkmk.poll_step timeout retries s false).retry_count = 0)
    ∧ Checkmk.poll_step timeout retries s true = ⟨0, timeout⟩
    ∧ (Checkmk.poll_after_failures timeout retries n).retry_interval_seconds
        = timeout * 2 ^ n
    ∧ (Checkmk.poll_after_failures timeout retries n).retry_interval_seconds
        ≤ (Checkmk.poll_after_failures timeout retries (n + 1)).retry_interval_seconds
    ∧ Checkmk.poll_sleep timeout s = timeout := by
  have hpow : ∀ m, (Checkmk.poll_after_failures timeout retries m).retry_interval_seconds
      = timeout * 2 ^ m := by
    intro m
    induction m with
    | zero => simp [Checkmk.poll_after_failures]
    | succ k ih =>
        simp only [Checkmk.poll_after_failures, Checkmk.poll_step,
          Bool.false_eq_true, if_false]
        rw [ih]
        ring
  refine ⟨?_, ?_, ?_, ?_, hpow n, ?_, rfl⟩
  · simp [Checkmk.poll_step, Nat.mul_comm]
  · simp only [Checkmk.poll_step, Bool.false_eq_true, if_false]
    omega
  · intro h
    simp only [Checkmk.poll_step, Bool.false_eq_true, if_false]
    rw [if_pos h]
  · simp [Checkmk.poll_step]
  · rw [hpow n, hpow (n + 1)]
    have : (2 : Nat) ^ n ≤ 2 ^ (n + 1) :=
      Nat.pow_le_pow_right (by omega) (by omega)
    exact Nat.mul_le_mul_left timeout this

/-- Claim C7 witness: with base interval 10 and ceiling 5, the interval
after three straight failures is 80, a fourth failure keeps it
non-decreasing, the counter resets when the ceiling is reached, and a
success restores the base state. -/
theorem poll_backoff_monotone_reset_witness :
    (Checkmk.poll_after_failures 10 5 3).retry_interval_seconds = 10 * 2 ^ 3
    ∧ (Checkmk.poll_step 10 5 ⟨4, 160⟩ false).retry_count = 0
    ∧ Checkmk.poll_step 10 5 ⟨4, 160⟩ true = ⟨0, 10⟩ :=
  ⟨(poll_backoff_monotone_reset 10 5 3 ⟨0, 10⟩).2.2.2.2.1,
   (poll_backoff_monotone_reset 10 5 3 ⟨4, 160⟩).2.2.1 (by decide),
   (poll_backoff_monotone_reset 10 5 3 ⟨4, 160⟩).2.2.2.1⟩

/-- Claim C9: when the acknowledgement target is found in the live
monitoring snapshot (the first service whose `check_command` equals the
`service_description` of the payload, resp. the first host carrying its
`host_name`) and its state is the healthy `0`, `_add_acknowledgement`
sends no acknowledgement API call and returns a synthetic successful
`ResponseDetails`, for either scope. -/
theorem ack_synthetic_success_on_healthy (cmk : CheckmkState)
    (apiResult : ResponseDetails) (sdesc hname hname2 : Option String)
    (comment comment2 : String) :
    (∀ svc, cmk.services.find? (fun s => s.check_command == sdesc) = some svc →
        svc.state = some 0 →
        Checkmk.add_acknowledgement cmk apiResult (.service sdesc hname comment)
          = (⟨none, some true⟩, 0))
    ∧ (∀ h, cmk.hosts.find? (fun x => x.name == hname2) = some h →
        h.state = some 0 →
        Checkmk.add_acknowledgement cmk apiResult (.host hname2 comment2)
          = (⟨none, some true⟩, 0)) := by
  constructor
  · intro svc hfind hstate
    simp [Checkmk.add_acknowledgement, Checkmk.check_if_problem_state, hfind, hstate]
  · intro h hfind hstate
    simp [Checkmk.add_acknowledgement, Checkmk.check_if_problem_state, hfind, hstate]

/-- Claim C9 witness: on the healthy snapshot `cmkHealthy` both the
service- and host-scoped acknowledgements short-circuit to a synthetic
success with zero API calls. -/
theorem ack_synthetic_success_on_healthy_witness :
    Checkmk.add_acknowledgement cmkHealthy ⟨some 500, some false⟩
        (.service (some "CPU load") (some "web01") "c") = (⟨none, some true⟩, 0)
    ∧ Checkmk.add_acknowledgement cmkHealthy ⟨some 500, some false⟩
        (.host (some "web01") "c") = (⟨none, some true⟩, 0) :=
  ⟨(ack_synthetic_success_on_healthy cmkHealthy ⟨some 500, some false⟩
      (some "CPU load") (some "web01") (some "web01") "c" "c").1
      ⟨some "CPU load", some 0⟩ (by decide) rfl,
   (ack_synthetic_success_on_healthy cmkHealthy ⟨some 500, some false⟩
      (some "CPU load") (some "web01") (some "web01") "c" "c").2
      ⟨some "web01", some 0⟩ (by decide) rfl⟩

/-- Claim C10: the cache membership test succeeds exactly when the key
is the string form of some cached problem id, so an integer key is never
a member even when that id is cached. -/
theorem cache_exists_string_equality (cache : List CombinedRequest) (key : PyKey) :
    (ProblemCache.pc_exists cache key = true ↔
      ∃ r ∈ cache, key = PyKey.str (pyStrOfOptInt r.checkmk_problem_id))
    ∧ (∀ n : Int, ProblemCache.pc_exists cache (.int n) = false) := by
  have hint : ∀ n : Int, ProblemCache.pc_exists cache (.int n) = false := by
    intro n
    simp only [ProblemCache.pc_exists, List.any_map, List.any_eq_true,
      Function.comp, pyKeyEqStr]
    simp
  refine ⟨?_, hint⟩
  cases key with
  | str s =>
      simp only [ProblemCache.pc_exists, List.any_map, List.any_eq_true,
        Function.comp, pyKeyEqStr, beq_iff_eq, PyKey.str.injEq, List.mem_map]
      constructor
      · rintro ⟨x, ⟨r, hr, rfl⟩, rfl⟩
        exact ⟨r, hr, rfl⟩
      · rintro ⟨r, hr, rfl⟩
        exact ⟨pyStrOfOptInt r.checkmk_problem_id, ⟨r, hr, rfl⟩, rfl⟩
  | int n =>
      rw [hint n]
      simp

/-- Claim C10 witness: the cache holding problem id `1234` answers false
to the integer key `1234` and true to the string key `"1234"`. -/
theorem cache_exists_string_equality_witness :
    ProblemCache.pc_exists cacheEx (.int 1234) = false
    ∧ ProblemCache.pc_exists cacheEx (.str "1234") = true :=
  ⟨(cache_exists_string_equality cacheEx (.int 1234)).2 1234,
   (cache_exists_string_equality cacheEx (.str "1234")).1.mpr
     ⟨⟨some 1, some "Open", some 1234, some "CRITICAL", some "service"⟩,
      by decide, by decide⟩⟩

/-- Helper: when the store already holds a row with the problem id of
the notification, the upsert takes the conflict branch: it updates `state` on
the conflicting row(s are unique under the index), returns the existing
internal key, and leaves the other tables untouched. -/
theorem insert_conflict_spec (db : DBState) (n : Notification) (row : AlertRow)
    (h : db.findProblemRow n.problem_id_column = some row) :
    DB.insert_checkmk_problem db n =
      ({ db with problems := db.problems.map (fun r =>
          if r.problem_id == n.problem_id_column then
            { r with state := n.state_column }
          else r) },
       row.id) := by
  cases n with
  | service sn =>
      simp only [Notification.problem_id_column] at h
      simp [DB.insert_checkmk_problem, upsertProblem, h,
        Notification.problem_id_column, Notification.state_column]
  | host hn =>
      simp only [Notification.problem_id_column] at h
      simp [DB.insert_checkmk_problem, upsertProblem, h,
        Notification.problem_id_column, Notification.state_column]

/-- Claim C1: for a non-recovery notification whose problem identifier
already has a stored alert row and a link (i.e. a first ingestion already
created a ticket and a link), a second ingestion — with identical or
updated fields — returns the `"Request already exists."` response with
`success = true`, makes no ticket-creation call, and leaves the link and
ticket tables exactly unchanged. -/
theorem idempotent_ingestion_second_call (env : Env) (db : DBState)
    (n : Notification) (row : AlertRow) (rq : Nat)
    (h_env : env.upsertOutcome = .ok)
    (h_rec : is_recovery_notification n = false)
    (h_row : db.findProblemRow n.problem_id_column = some row)
    (h_id : row.id ≠ 0)
    (h_link : DB.check_if_request_exists db row.id = some rq) :
    (handle_notification_request env db n).result
        = .ok ⟨true, "Request already exists.", none⟩
    ∧ (handle_notification_request env db n).sdpCreateCalls = 0
    ∧ (handle_notification_request env db n).db.links = db.links
    ∧ (handle_notification_request env db n).db.requests = db.requests := by
  have hins := insert_conflict_spec db n row h_row
  have hlinks : ∀ P : List AlertRow, ∀ aid : Nat,
      DB.check_if_request_exists { db with problems := P } aid
        = DB.check_if_request_exists db aid := fun _ _ => rfl
  simp [handle_notification_request, h_rec, h_env, hins, hlinks, h_link, h_id]

/-- Claim C1 witness: redelivering the `"1234"` alert with an updated
state against `exDb` (which holds its row, ticket and link) yields the
already-exists response, zero ticket calls, and unchanged link and
ticket tables. -/
theorem idempotent_ingestion_second_call_witness :
    (handle_notification_request envOk exDb (.service exServiceUpdate)).result
        = .ok ⟨true, "Request already exists.", none⟩
    ∧ (handle_notification_request envOk exDb
        (.service exServiceUpdate)).sdpCreateCalls = 0
    ∧ (handle_notification_request envOk exDb
        (.service exServiceUpdate)).db.links = exDb.links
    ∧ (handle_notification_request envOk exDb
        (.service exServiceUpdate)).db.requests = exDb.requests :=
  idempotent_ingestion_second_call envOk exDb (.service exServiceUpdate) exRow 1
    rfl (by decide) (by decide) (by decide) (by decide)

/-- Claim C2 counterexample: on `exDb`, whose alert 1 already has a link,
a further `link_problem_and_request` call for alert 1 does not fail —
the operation has no error outcome at all and no `DuplicateLinkError`
exists in the code — and it persists a second link row for that alert. -/
theorem createLink_duplicate_not_rejected_cex :
    (DB.link_problem_and_request false exDb 1 2).links.countP
        (fun l => l.alert_id == 1) = 2
    ∧ (DB.link_problem_and_request false exDb 1 2).links
        = exDb.links ++ [⟨1, 2⟩] := by decide

/-- Claim C2 (amended): `link_problem_and_request` never raises a
duplicate error: when the insert goes through it appends a link row —
also for an alert that already has one — and when the underlying insert
errors the exception is swallowed (logged) and the store is unchanged,
with no error surfaced to the caller either way. -/
theorem createLink_appends_and_swallows (db : DBState) (a r : Nat) :
    DB.link_problem_and_request false db a r
        = { db with links := db.links ++ [⟨a, r⟩] }
    ∧ (DB.link_problem_and_request false db a r).links.countP
        (fun l => l.alert_id == a)
        = db.links.countP (fun l => l.alert_id == a) + 1
    ∧ DB.link_problem_and_request true db a r = db := by
  refine ⟨rfl, ?_, rfl⟩
  simp [DB.link_problem_and_request, List.countP_append]

/-- Claim C3 counterexample: re-ingesting problem `"1234"` into `exDb`
with an updated payload updates the stored `state` but leaves the stored
raw payload at its original value `"RAW0"`, although the redelivered
notification serialises differently — the upsert does not update the raw
payload in place. -/
theorem upsert_raw_payload_not_updated_cex :
    ((DB.insert_checkmk_problem exDb (.service exServiceUpdate)).1.problems.map
        (fun r => r.raw_payload)) = ["RAW0"]
    ∧ exServiceUpdate.model_dump_json ≠ "RAW0"
    ∧ ((DB.insert_checkmk_problem exDb (.service exServiceUpdate)).1.problems.map
        (fun r => r.state)) = [some "OK"]
    ∧ (DB.insert_checkmk_problem exDb (.service exServiceUpdate)).2 = 1 := by
  decide

/-- Claim C3 (amended): when a row with the same problem id already
exists, the upsert updates the `state` of that row in place — the raw
payload is left as first recorded — never creates a duplicate row (the
table keeps its length and the other tables are untouched), and the
internal key of the existing row is returned. -/
theorem upsert_updates_state_in_place (db : DBState) (n : Notification)
    (row : AlertRow)
    (h : db.findProblemRow n.problem_id_column = some row) :
    (DB.insert_checkmk_problem db n).2 = row.id
    ∧ (DB.insert_checkmk_problem db n).1.problems.length = db.problems.length
    ∧ (DB.insert_checkmk_problem db n).1.problems
        = db.problems.map (fun r =>
            if r.problem_id == n.problem_id_column then
              { r with state := n.state_column }
            else r)
    ∧ (DB.insert_checkmk_problem db n).1.problems.map (fun r => r.raw_payload)
        = db.problems.map (fun r => r.raw_payload)
    ∧ (DB.insert_checkmk_problem db n).1.requests = db.requests
    ∧ (DB.insert_checkmk_problem db n).1.links = db.links := by
  rw [insert_conflict_spec db n row h]
  refine ⟨rfl, by simp, rfl, ?_, rfl, rfl⟩
  rw [List.map_map]
  apply List.map_congr_left
  intro r _
  by_cases hc : (r.problem_id == n.problem_id_column) = true
  · simp [Function.comp, hc]
  · simp [Function.comp, hc]

/-- Claim C3 (amended) witness: the concrete re-ingestion of `"1234"`
into `exDb` returns the existing key 1 and keeps a single row. -/
theorem upsert_updates_state_in_place_witness :
    (DB.insert_checkmk_problem exDb (.service exServiceUpdate)).2 = exRow.id
    ∧ (DB.insert_checkmk_problem exDb
        (.service exServiceUpdate)).1.problems.length = exDb.problems.length :=
  ⟨(upsert_updates_state_in_place exDb (.service exServiceUpdate) exRow
      (by decide)).1,
   (upsert_updates_state_in_place exDb (.service exServiceUpdate) exRow
      (by decide)).2.1⟩

/-- Helper: `insert_request` never touches the `t_checkmk_problems`
table. -/
theorem insert_request_preserves_problems (fault : Bool) (db : DBState)
    (rid : Int) (st : String) :
    ((DB.insert_request fault db rid st).1).problems = db.problems := by
  unfold DB.insert_request
  by_cases hf : fault
  · simp [hf]
  · simp only [hf, Bool.false_eq_true, if_false]
    cases db.requests.find? (fun r => r.request_id == rid) <;> rfl

/-- Helper: after `update_checkmk_acknowledged db id`, every problem row
with that internal key carries `acknowledged = 1`. -/
theorem update_ack_marks (db : DBState) (id : Nat) :
    ∀ r ∈ (DB.update_checkmk_acknowledged db id).1.problems,
      r.id = id → r.acknowledged = 1 := by
  intro r hr hid
  simp only [DB.update_checkmk_acknowledged, List.mem_map] at hr
  obtain ⟨r0, _, rfl⟩ := hr
  by_cases h : (r0.id == id) = true
  · simp [h]
  · rw [if_neg (by simp_all)] at hid ⊢
    exact absurd hid (by simpa using h)

/-- Claim C8: processing one polled ticket in a reconciliation pass:
when its status is present and not "open", its id is truthy, its linked
alert info is resolvable from the store (with the host name the data
model requires), the alert is not yet acknowledged, and the collaborator
call does not raise, exactly one acknowledgment call is issued — service-
or host-scoped according to the kind of the alert (`coordPayload`) — and
if that call reports success the `acknowledged` flag is persisted;
tickets with an absent or "open" status, an already acknowledged alert,
or unresolvable link info are skipped with no call and no state change. -/
theorem reconciliation_single_ack_and_persist (env : CoordEnv)
    (cmk : CheckmkState) (url : String) (db : DBState) (req : SDPReq) :
    (∀ rid info,
      req.id = some rid →
      truthyInt req.id = true →
      truthyStr req.status_name = true →
      lowerOpt req.status_name ≠ some "open" →
      DB.get_checkmk_info db rid = some info →
      info.acknowledged ≠ 1 →
      truthyStr info.host_name = true →
      env.ackRaises = false →
      ((LogicCoordinator.process_request env cmk url db req).ackCalls
          = [coordPayload info (url ++ toString rid)]
       ∧ ((Checkmk.add_acknowledgement cmk env.apiResult
              (coordPayload info (url ++ toString rid))).1.success = some true →
            ∀ r ∈ (LogicCoordinator.process_request env cmk url db req).db.problems,
              r.id = info.id → r.acknowledged = 1)))
    ∧ ((truthyStr req.status_name = false ∨ lowerOpt req.status_name = some "open") →
        LogicCoordinator.process_request env cmk url db req = ⟨db, []⟩)
    ∧ (∀ rid info,
        req.id = some rid →
        DB.get_checkmk_info db rid = some info →
        info.acknowledged = 1 →
        LogicCoordinator.process_request env cmk url db req = ⟨db, []⟩)
    ∧ (∀ rid,
        req.id = some rid →
        DB.get_checkmk_info db rid = none →
        LogicCoordinator.process_request env cmk url db req = ⟨db, []⟩) := by
  refine ⟨?_, ?_, ?_, ?_⟩
  · intro rid info h1 h2 h3 h4 h5 h6 h7 h8
    have hc1 : (lowerOpt req.status_name == some "open") = false :=
      beq_eq_false_iff_ne.mpr h4
    have hc6 : (info.acknowledged == 1) = false := beq_eq_false_iff_ne.mpr h6
    have hproc : LogicCoordinator.process_request env cmk url db req =
        (if (Checkmk.add_acknowledgement cmk env.apiResult
              (coordPayload info (url ++ toString rid))).1.success == some true then
          ⟨(DB.insert_request false (DB.update_checkmk_acknowledged db info.id).1
              rid (req.status_name.getD "")).1,
            [coordPayload info (url ++ toString rid)]⟩
        else
          ⟨db, [coordPayload info (url ++ toString rid)]⟩) := by
      rw [h1] at h2
      rw [LogicCoordinator.process_request, h1]
      simp only [h2, h3, hc1, h5, hc6, h7, h8, coordPayload, Bool.not_true,
        Bool.false_or, Bool.false_eq_true, if_false, if_true]
    constructor
    · rw [hproc]
      split <;> rfl
    · intro hsucc r hr hid
      rw [hproc, if_pos (by simp [hsucc])] at hr
      simp only at hr
      rw [insert_request_preserves_problems] at hr
      exact update_ack_marks db info.id r hr hid
  · intro h
    rcases h with h | h
    · simp [LogicCoordinator.process_request, h]
    · simp [LogicCoordinator.process_request, h]
  · intro rid info h1 h5 h6
    rw [LogicCoordinator.process_request, h1]
    by_cases h3 : truthyStr req.status_name = true
    · by_cases h4 : (lowerOpt req.status_name == some "open") = true
      · simp [h3, h4]
      · by_cases h2 : truthyInt (some rid) = true
        · simp [h3, h4, h2, h5, h6]
        · simp [h3, h4, h2]
    · simp [Bool.of_not_eq_true h3]
  · intro rid h1 h5
    rw [LogicCoordinator.process_request, h1]
    by_cases h3 : truthyStr req.status_name = true
    · by_cases h4 : (lowerOpt req.status_name == some "open") = true
      · simp [h3, h4]
      · by_cases h2 : truthyInt (some rid) = true
        · simp [h3, h4, h2, h5]
        · simp [h3, h4, h2]
    · simp [Bool.of_not_eq_true h3]

/-- Claim C8 witness: the scenario of the spec — ticket 100 polled as
`"Closed"`, linked in `exDb` to the unacknowledged service alert
`"1234"` on `web01`, live state not OK — yields exactly one
service-scoped acknowledgement call and persists `acknowledged = 1`. -/
theorem reconciliation_single_ack_and_persist_witness :
    (LogicCoordinator.process_request coordEnvOk cmkBusy "URL" exDb
        reqClosed).ackCalls
      = [AckPayload.service (some "CPU load") (some "web01") "URL100"]
    ∧ ((LogicCoordinator.process_request coordEnvOk cmkBusy "URL" exDb
        reqClosed).db.problems.map (fun r => r.acknowledged)) = [1] := by
  refine ⟨?_, by decide⟩
  have h := (reconciliation_single_ack_and_persist coordEnvOk cmkBusy "URL"
      exDb reqClosed).1 100
      ⟨1, some "web01", some "check_cpu", some "CPU load", 0,
        some "CRITICAL", "service"⟩
      rfl (by decide) (by decide) (by decide) (by decide) (by decide)
      (by decide) rfl
  exact h.1.trans (by decide)

end CheckmkSdp
